import Mathlib

/- Shallow embedding of the chunked file transfer and synchronization engine of
`synapseclient/client.py` (the `Synapse` class): the chunked upload protocol
(`_chunkedUploadFile` and its helper REST calls), the file-handle resolver
(`_uploadToFileHandleService`, `_addURLtoFileHandleService`) and the download
cache logic of `_downloadLocations`.

Remote collaborators (REST responses, the object store, the filesystem) are
abstracted as environment records of functions; every observable side effect
(network request, thread sleep, file write, archive-member extraction) is
recorded in an event trace returned alongside the result, in program order.
Python exceptions are modelled as explicit error outcomes. -/

/-- Modelled from the spec: the constants `KB`/`MB` are imported from
`synapseclient.utils`, which is not under src/; spec sections 4.3 and 6 fix the
minimum chunk size at "5 MiB", so `MB = 2 ^ 20`. -/
def MB : Nat := 1048576

/-- `CHUNK_SIZE = 5*MB` (client.py line 43), the default chunk size. -/
def CHUNK_SIZE : Nat := 5 * MB

/-- `CHUNK_UPLOAD_POLL_INTERVAL = 1` second (client.py line 44). -/
def CHUNK_UPLOAD_POLL_INTERVAL : Nat := 1

/-- The payload of the `fileHandle` dict built by `_addURLtoFileHandleService`:
`concreteType`, `fileName`, `externalURL` are always set; `contentType` is set
only when `mimetypes.guess_type` returns a truthy value. -/
structure ExternalFileHandle where
  concreteType : String
  fileName : String
  externalURL : String
  contentType : Option String
  deriving DecidableEq, Repr

/-- Observable side effects of the engine, in program order. -/
inductive Event where
  /-- `restPOST /createChunkedFileUploadToken` with fileName, contentType, contentMD5. -/
  | tokenRequest (fileName contentType contentMD5 : String)
  /-- `restPOST /createChunkedFileUploadChunkURL` for a chunk number. -/
  | chunkURLRequest (chunkNumber : Nat)
  /-- `requests.put` of one chunk's bytes to the signed URL. -/
  | putChunk (chunkNumber : Nat) (body : List Nat)
  /-- `restPOST /startCompleteUploadDaemon` with the chunk-number list. -/
  | startDaemon (chunkNumbers : List Nat)
  /-- `restGET /completeUploadDaemonStatus/{daemonId}`. -/
  | statusQuery (daemonId : String)
  /-- `time.sleep(seconds)`. -/
  | sleep (seconds : Nat)
  /-- `restGET /fileHandle/{id}`. -/
  | getFileHandleReq (id : String)
  /-- `restPOST /externalFileHandle` with the handle payload. -/
  | externalHandlePost (fh : ExternalFileHandle)
  /-- `utils.download_file(url, filename)`: HTTP GET streamed to disk. -/
  | downloadFile (url : String) (dest : String)
  /-- write a small local file (the `.md5` digest sidecar). -/
  | writeFile (path : String) (content : String)
  /-- `zipfile.ZipFile.extractall` writing one archive member to `dest`. -/
  | extractMember (dest : String)
  deriving DecidableEq, Repr

/-- Which events are network requests (REST calls, object-store PUT, download). -/
def Event.isNetwork : Event → Bool
  | .tokenRequest _ _ _ => true
  | .chunkURLRequest _ => true
  | .putChunk _ _ => true
  | .startDaemon _ => true
  | .statusQuery _ => true
  | .getFileHandleReq _ => true
  | .externalHandlePost _ => true
  | .downloadFile _ _ => true
  | _ => false

/-- A completion-daemon status response: a dict with a `state` string and the
optional keys `fileHandleId` (on COMPLETED) and `errorMessage` (on FAILED). -/
structure DaemonStatus where
  daemonId : String
  state : String
  fileHandleId : Option String := none
  errorMessage : Option String := none
  deriving DecidableEq, Repr

/-- The parsed response of `restGET /fileHandle/{id}` (opaque to the client). -/
structure FileHandle where
  id : String
  deriving DecidableEq, Repr

/-- Result of `_chunkedUploadFile`: the returned handle, or the Python
exception raised (`ValueError`, `raise_for_status` on a chunk PUT,
`raise Exception(errorMessage)`, a dict `KeyError`), or an unending poll loop
(the scripted status responses were exhausted while still PROCESSING). -/
inductive UploadOutcome where
  | ok (fh : FileHandle)
  | valueError (msg : String)
  | httpError (chunkNumber : Nat)
  | exceptionMsg (msg : String)
  | keyError (key : String)
  | pollHang
  deriving DecidableEq, Repr

/-- Environment of `_chunkedUploadFile`: the filesystem and the scripted
responses of every remote collaborator. `firstStatus` is the response of
`_startCompleteUploadDaemon`; `pollStatuses` are the successive responses of
`_completeUploadDaemonStatus`. -/
structure UploadEnv where
  pathExists : String → Bool
  guessType : String → Option String
  md5_for_file : String → String
  fileBytes : String → List Nat
  putOk : Nat → Bool
  firstStatus : DaemonStatus
  pollStatuses : List DaemonStatus
  fileHandleFor : String → FileHandle

/-- Python's `str.split(sep)` for a one-character separator, by structural
recursion on the character list (`"".split(sep)` is `[""]`). Implemented
directly so that concrete runs reduce inside the kernel. -/
def splitCharList (c : Char) : List Char → List (List Char)
  | [] => [[]]
  | x :: xs =>
    match splitCharList c xs with
    | [] => if x = c then [[], []] else [[x]]
    | y :: ys => if x = c then [] :: y :: ys else (x :: y) :: ys

/-- Python's `s.split(c)` on strings. -/
def pySplit (s : String) (c : Char) : List String :=
  (splitCharList c s.data).map String.mk

/-- Whether a string begins with `/` (the POSIX absolute-path test). -/
def startsWithSlash (s : String) : Bool :=
  match s.data with
  | [] => false
  | c :: _ => c == '/'

/-- Whether the first list is a leading segment of the second. -/
def leadsWith : List Char → List Char → Bool
  | [], _ => true
  | _ :: _, [] => false
  | p :: ps, s :: ss => p == s && leadsWith ps ss

/-- `os.path.basename`: the part after the last slash. -/
def basename (p : String) : String := (pySplit p '/').getLastD ""

/-- `os.path.dirname`: the part before the last slash. -/
def dirname (p : String) : String :=
  String.intercalate "/" (pySplit p '/').dropLast

/-- `os.path.join(a, b)` for POSIX paths: `b` wins when absolute. -/
def os_path_join (a b : String) : String :=
  if startsWithSlash b then b else a ++ "/" ++ b

/-- Modelled from the spec: `utils.chunks` is not under src/. Spec section 4.3:
"split the file into sequential chunks of the configured byte size (last chunk
may be shorter)"; an empty file yields no chunks. The fuel argument is the
length of the remaining data, which bounds the number of nonempty chunks. -/
def chunksAux (csize : Nat) : Nat → List Nat → List (List Nat)
  | _, [] => []
  | 0, _ => []
  | fuel + 1, data => data.take csize :: chunksAux csize fuel (data.drop csize)

/-- Modelled from the spec: the sequential chunk split of a byte list. -/
def chunks (data : List Nat) (csize : Nat) : List (List Nat) :=
  chunksAux csize data.length data

/-- The `for chunk in utils.chunks(f, chunksize)` loop of `_chunkedUploadFile`:
`i` is incremented, the signed URL for chunk `i` is requested, and the chunk is
PUT (under the dedicated retry policy, folded into `putOk`); a PUT that still
fails raises through `raise_for_status`, ending the loop. Returns the events
and either the failing chunk number or the final value of `i`. -/
def chunkLoop (env : UploadEnv) : Nat → List (List Nat) → List Event × Except Nat Nat
  | i, [] => ([], Except.ok i)
  | i, c :: rest =>
    if env.putOk (i + 1) then
      (Event.chunkURLRequest (i + 1) :: Event.putChunk (i + 1) c :: (chunkLoop env (i + 1) rest).1,
       (chunkLoop env (i + 1) rest).2)
    else
      ([Event.chunkURLRequest (i + 1), Event.putChunk (i + 1) c], Except.error (i + 1))

/-- The `while (status['state']=='PROCESSING')` poll loop: sleep one poll
interval, then query the daemon status again. Returns the poll events and the
first non-PROCESSING status, or `none` when the scripted responses run out
while still PROCESSING (the real loop would keep polling). -/
def pollLoop : DaemonStatus → List DaemonStatus → List Event × Option DaemonStatus
  | st, rest =>
    if st.state = "PROCESSING" then
      match rest with
      | [] => ([Event.sleep CHUNK_UPLOAD_POLL_INTERVAL, Event.statusQuery st.daemonId], none)
      | next :: rest2 =>
        (Event.sleep CHUNK_UPLOAD_POLL_INTERVAL :: Event.statusQuery st.daemonId ::
           (pollLoop next rest2).1,
         (pollLoop next rest2).2)
    else ([], some st)

/-- The body of the `try:` block of `_chunkedUploadFile` (client.py lines
1318-1408): guess the MIME type (defaulting on `None`), request the upload
token, run the chunk loop, start the completion daemon with
`[a+1 for a in range(i)]`, poll, and on a terminal status either raise the
server's error message (FAILED) or fetch the resulting file handle. -/
def uploadBody (env : UploadEnv) (filepath : String) (chunksize : Nat) :
    UploadOutcome × List Event :=
  let mimetype := match env.guessType filepath with
    | none => "application/octet-stream"
    | some m => m
  let tokenEv := Event.tokenRequest (basename filepath) mimetype (env.md5_for_file filepath)
  let cs := chunks (env.fileBytes filepath) chunksize
  let cl := chunkLoop env 0 cs
  match cl.2 with
  | Except.error n => (UploadOutcome.httpError n, tokenEv :: cl.1)
  | Except.ok i =>
    let chunkNumbers := (List.range i).map (fun a => a + 1)
    let pl := pollLoop env.firstStatus env.pollStatuses
    let evs := tokenEv :: cl.1 ++ Event.startDaemon chunkNumbers :: pl.1
    match pl.2 with
    | none => (UploadOutcome.pollHang, evs)
    | some st =>
      if st.state = "FAILED" then
        match st.errorMessage with
        | some m => (UploadOutcome.exceptionMsg m, evs)
        | none => (UploadOutcome.keyError "errorMessage", evs)
      else
        match st.fileHandleId with
        | some fid =>
          (UploadOutcome.ok (env.fileHandleFor fid), evs ++ [Event.getFileHandleReq fid])
        | none => (UploadOutcome.keyError "fileHandleId", evs)

/-- The `verbose` argument of `_chunkedUploadFile`: `False`, `True`, or the
string `'debug'`. -/
inductive PyVerbose where
  | vOff
  | vOn
  | vDebug
  deriving DecidableEq, Repr

/-- `_chunkedUploadFile(filepath, chunksize, verbose, ...)` (client.py lines
1297-1410). Returns the outcome, the value of `self.debug` after the call, and
the event trace. The two `ValueError` guards run before `self.debug` is saved
or touched and before any remote call; the body runs inside
`try: ... finally: self.debug = old_debug`, and never reads `self.debug`
itself (tracing is gated on `verbose` only), so the temporary
`self.debug = True` for `verbose=='debug'` affects neither outcome nor trace. -/
def chunkedUploadFile (env : UploadEnv) (debugIn : Bool) (filepath : Option String)
    (chunksize : Nat) (verbose : PyVerbose) :
    UploadOutcome × Bool × List Event :=
  if chunksize < 5 * MB then
    (UploadOutcome.valueError "Minimum chunksize is 5 MB.", debugIn, [])
  else
    match filepath with
    | none => (UploadOutcome.valueError "File not found: None", debugIn, [])
    | some fp =>
      if env.pathExists fp = false then
        (UploadOutcome.valueError ("File not found: " ++ fp), debugIn, [])
      else
        let old_debug := debugIn
        let _debug_during := if verbose = PyVerbose.vDebug then true else debugIn
        let body := uploadBody env fp chunksize
        (body.1, old_debug, body.2)

/-- Result of `_uploadToFileHandleService`: the returned file handle, or the
exception propagated from the guard or from `_chunkedUploadFile`. -/
inductive FHSResult where
  | ok (fh : FileHandle)
  | err (o : UploadOutcome)
  deriving DecidableEq, Repr

/-- Environment of the file-handle resolver: the upload environment plus the
URL predicate and the parsed response of `restPOST /externalFileHandle`. -/
structure ResolverEnv where
  up : UploadEnv
  is_url : String → Bool
  externalResponse : ExternalFileHandle → FileHandle

/-- Modelled from the spec: `utils.as_url` is not under src/. Spec section 4.4:
a local path is referenced through a `file:` scheme URL; a URL passes through
unchanged. -/
def as_url (isU : String → Bool) (s : String) : String :=
  if isU s then s else "file://" ++ s

/-- The `fileHandle` dict built by `_addURLtoFileHandleService` (client.py
lines 1256-1261): `contentType` is set only when `mimetypes.guess_type` on the
URL is truthy (`if mimetype:`), otherwise the key is absent. -/
def mkExternalFileHandle (guess : Option String) (fileName externalURL : String) :
    ExternalFileHandle :=
  let base : ExternalFileHandle :=
    { concreteType := "org.sagebionetworks.repo.model.file.ExternalFileHandle"
      fileName := fileName
      externalURL := externalURL
      contentType := none }
  match guess with
  | some m => if m = "" then base else { base with contentType := some m }
  | none => base

/-- `_addURLtoFileHandleService(externalURL)` (client.py lines 1251-1262):
`fileName` is the part of the argument after the last `/` (computed before the
`as_url` conversion), and the single network effect is the POST of the handle
payload to `/externalFileHandle`. -/
def addURLtoFileHandleService (env : ResolverEnv) (externalURL : String) :
    FileHandle × List Event :=
  let fileName := (pySplit externalURL '/').getLastD ""
  let url := as_url env.is_url externalURL
  let fh := mkExternalFileHandle (env.up.guessType url) fileName url
  (env.externalResponse fh, [Event.externalHandlePost fh])

/-- `_uploadToFileHandleService(filename, synapseStore)` (client.py lines
1211-1234): reject a falsy filename (`None` or the empty string) with
`ValueError('No filename given')`; link a URL externally; link a local path
externally when `synapseStore==False`; otherwise chunked-upload the local path
with the default chunk size and `verbose=False`. Returns the result, the value
of `self.debug` after the call, and the event trace. -/
def uploadToFileHandleService (env : ResolverEnv) (debugIn : Bool)
    (filename : Option String) (synapseStore : Option Bool) :
    FHSResult × Bool × List Event :=
  match filename with
  | none => (FHSResult.err (UploadOutcome.valueError "No filename given"), debugIn, [])
  | some fn =>
    if fn = "" then
      (FHSResult.err (UploadOutcome.valueError "No filename given"), debugIn, [])
    else if env.is_url fn then
      let r := addURLtoFileHandleService env fn
      (FHSResult.ok r.1, debugIn, r.2)
    else if synapseStore = some false then
      let r := addURLtoFileHandleService env fn
      (FHSResult.ok r.1, debugIn, r.2)
    else
      let r := chunkedUploadFile env.up debugIn (some fn) CHUNK_SIZE PyVerbose.vOff
      (match r.1 with
       | UploadOutcome.ok fh => FHSResult.ok fh
       | o => FHSResult.err o, r.2.1, r.2.2)

/-- Environment of `_downloadLocations`: the local filesystem and URL parsing.
`urlPathOf` is `urlparse.urlparse(url).path`; `readFirstLineStripped` is
`open(f).readline().rstrip()`; `namelist` lists the members of the zip archive
at a path. -/
structure DLEnv where
  pathExists : String → Bool
  getmtime : String → Int
  readFirstLineStripped : String → String
  md5_for_file : String → String
  urlPathOf : String → String
  namelist : String → List String

/-- The fields of a Locationable entity that `_downloadLocations` reads: the
`path` URLs of `entity['locations']`, `entity['id']`, the optional
`entity.get('md5','')` and the `entity['contentType']` key (a `KeyError` when
absent). -/
structure LocEntity where
  id : String
  locations : List String
  md5 : Option String
  contentType : Option String

/-- The fields `_downloadLocations` sets on the entity before returning it:
`entity.path`, `entity['cacheDir']`, `entity['files']` (all unset when the
entity has no locations). -/
structure DLOut where
  path : Option String
  cacheDir : Option String
  files : Option (List String)
  deriving DecidableEq, Repr

/-- Result of `_downloadLocations`: the updated entity fields, or the
`KeyError` raised by `entity['contentType']` when the key is absent. -/
inductive DLResult where
  | ok (out : DLOut)
  | keyError (key : String)
  deriving DecidableEq, Repr

/-- The cache path `os.path.join(self.cacheDir, entity['id'],
pathComponents[-1])` computed by `_downloadLocations` (client.py line 1107). -/
def cachedFileName (env : DLEnv) (cacheDir : String) (entity : LocEntity)
    (url : String) : String :=
  os_path_join (os_path_join cacheDir entity.id)
    ((pySplit (env.urlPathOf url) '/').getLastD "")

/-- `_downloadLocations(entity)` (client.py lines 1095-1144). When the cached
file exists: a sidecar `.md5` strictly newer than the file is read as the
cached digest, otherwise the digest is recomputed and the sidecar rewritten;
a digest differing from `entity.get('md5','')` triggers a re-download. When
the file does not exist it is downloaded. A `contentType` of
`application/zip` makes `zipfile.ZipFile.extractall` write every archive
member under `<file>_unpacked` via `os.path.join` with no confinement check
(the source marks this `WARNING!!!NOT SAFE`). -/
def downloadLocations (env : DLEnv) (cacheDir : String) (entity : LocEntity) :
    DLResult × List Event :=
  match entity.locations with
  | [] => (DLResult.ok { path := none, cacheDir := none, files := none }, [])
  | url :: _ =>
    let filename := cachedFileName env cacheDir entity url
    let sidecar := filename ++ ".md5"
    let preEvs : List Event :=
      if env.pathExists filename then
        let rd :=
          if env.pathExists sidecar = true ∧ env.getmtime sidecar > env.getmtime filename then
            (env.readFirstLineStripped sidecar, ([] : List Event))
          else
            let m := env.md5_for_file filename
            (m, [Event.writeFile sidecar m])
        if rd.1 ≠ entity.md5.getD "" then
          rd.2 ++ [Event.downloadFile url filename]
        else rd.2
      else
        [Event.downloadFile url filename]
    match entity.contentType with
    | none => (DLResult.keyError "contentType", preEvs)
    | some ct =>
      if ct = "application/zip" then
        let filepath := os_path_join (dirname filename) (basename filename ++ "_unpacked")
        let members := env.namelist filename
        (DLResult.ok { path := some filename, cacheDir := some filepath, files := some members },
         preEvs ++ members.map (fun m => Event.extractMember (os_path_join filepath m)))
      else
        (DLResult.ok { path := some filename, cacheDir := some (dirname filename),
                       files := some [basename filename] },
         preEvs)

/-- Normalize the `/`-separated segments of an absolute path: drop empty and
`.` segments, let `..` pop the previous segment (at the root it stays at the
root, as POSIX resolution does). -/
def normSegs (segs : List String) : List String :=
  segs.foldl
    (fun acc c =>
      if c = "" ∨ c = "." then acc
      else if c = ".." then acc.dropLast
      else acc ++ [c]) []

/-- Resolve an absolute path to its normal form. -/
def normalizePath (p : String) : String :=
  "/" ++ String.intercalate "/" (normSegs (pySplit p '/'))

/-- Whether the resolved form of `p` lies inside the directory `dir`. -/
def isWithin (dir p : String) : Bool :=
  normalizePath p == normalizePath dir ||
    (normalizePath p).startsWith (normalizePath dir ++ "/")

/-- The chunk number carried by a `chunkURLRequest` event. -/
def Event.urlReqNum : Event → Option Nat
  | .chunkURLRequest n => some n
  | _ => none

/-- The chunk number carried by a `putChunk` event. -/
def Event.putNum : Event → Option Nat
  | .putChunk n _ => some n
  | _ => none

/-- The chunk-number list carried by a `startDaemon` event. -/
def Event.daemonList : Event → Option (List Nat)
  | .startDaemon l => some l
  | _ => none

/-- The content type carried by a `tokenRequest` event. -/
def Event.tokenContentType : Event → Option String
  | .tokenRequest _ ct _ => some ct
  | _ => none

/-- Whether an event is a poll sleep. -/
def Event.isSleep : Event → Bool
  | .sleep _ => true
  | _ => false

/-- Whether an event belongs to the chunk loop (signed-URL request or PUT). -/
def Event.isChunkEvent : Event → Bool
  | .chunkURLRequest _ => true
  | .putChunk _ _ => true
  | _ => false

/-- Whether an event belongs to the poll loop (sleep or status query). -/
def Event.isPollEvent : Event → Bool
  | .sleep _ => true
  | .statusQuery _ => true
  | _ => false

/-- The chunk-number lists of all completion-daemon start requests in a trace. -/
def startedDaemonLists (evs : List Event) : List (List Nat) :=
  evs.filterMap Event.daemonList

/-- The number of poll sleeps in a trace. -/
def countSleeps (evs : List Event) : Nat := (evs.filter Event.isSleep).length

/-- A daemon status that is immediately COMPLETED, for concrete runs. -/
def statusDone : DaemonStatus :=
  { daemonId := "d1", state := "COMPLETED", fileHandleId := some "42" }

/-- A concrete upload environment whose filesystem has no files. -/
def envA : UploadEnv :=
  { pathExists := fun _ => false
    guessType := fun _ => none
    md5_for_file := fun _ => "d41d8cd98f00b204e9800998ecf8427e"
    fileBytes := fun _ => []
    putOk := fun _ => true
    firstStatus := statusDone
    pollStatuses := []
    fileHandleFor := fun s => { id := s } }

/-- A concrete upload environment holding one three-byte file everywhere. -/
def envB : UploadEnv :=
  { pathExists := fun _ => true
    guessType := fun _ => none
    md5_for_file := fun _ => "5289df737df57326fcdd22597afb1fac"
    fileBytes := fun _ => [1, 2, 3]
    putOk := fun _ => true
    firstStatus := statusDone
    pollStatuses := []
    fileHandleFor := fun s => { id := s } }

/-- A concrete resolver environment over `envA` treating no string as a URL. -/
def envR : ResolverEnv :=
  { up := envA
    is_url := fun _ => false
    externalResponse := fun _ => { id := "ext1" } }

/-- C2: a chunked upload invoked with a chunk size strictly below 5 MiB, or
with a source file path that is None or does not exist, fails with a
`ValueError` before any network call (the trace is empty) and leaves the
client's debug flag unchanged. -/
theorem C2_chunked_upload_local_preconditions (env : UploadEnv) (debugIn : Bool)
    (filepath : Option String) (chunksize : Nat) (verbose : PyVerbose)
    (h : chunksize < 5 * MB ∨ filepath = none ∨
         ∃ fp, filepath = some fp ∧ env.pathExists fp = false) :
    ∃ msg, chunkedUploadFile env debugIn filepath chunksize verbose =
      (UploadOutcome.valueError msg, debugIn, []) := by
  unfold chunkedUploadFile
  rcases h with h | h | ⟨fp, hfp, hex⟩
  · exact ⟨"Minimum chunksize is 5 MB.", by simp [h]⟩
  · subst h
    by_cases hcs : chunksize < 5 * MB
    · exact ⟨"Minimum chunksize is 5 MB.", by simp [hcs]⟩
    · exact ⟨"File not found: None", by simp [hcs]⟩
  · subst hfp
    by_cases hcs : chunksize < 5 * MB
    · exact ⟨"Minimum chunksize is 5 MB.", by simp [hcs]⟩
    · exact ⟨"File not found: " ++ fp, by simp [hcs, hex]⟩

/-- Witness for C2 at a 1 MiB chunk size. -/
theorem C2_witness :
    (1 * MB < 5 * MB ∨ (some "f" : Option String) = none ∨
      ∃ fp, (some "f" : Option String) = some fp ∧ envA.pathExists fp = false) ∧
    ∃ msg, chunkedUploadFile envA false (some "f") (1 * MB) PyVerbose.vOff =
      (UploadOutcome.valueError msg, false, []) :=
  ⟨Or.inl (by decide),
   C2_chunked_upload_local_preconditions envA false (some "f") (1 * MB) PyVerbose.vOff
     (Or.inl (by decide))⟩

/-- C9: on every exit path of `_chunkedUploadFile` (`ValueError` guards, any
raised error in the body, or normal return) the client's debug flag equals its
entry value, `verbose=='debug'` notwithstanding. -/
theorem C9_debug_flag_restored (env : UploadEnv) (debugIn : Bool)
    (filepath : Option String) (chunksize : Nat) (verbose : PyVerbose) :
    (chunkedUploadFile env debugIn filepath chunksize verbose).2.1 = debugIn := by
  unfold chunkedUploadFile
  by_cases hcs : chunksize < 5 * MB
  · simp [hcs]
  · cases filepath with
    | none => simp [hcs]
    | some fp =>
      by_cases hex : env.pathExists fp = false
      · simp [hcs, hex]
      · simp [hcs, hex]

/-- C10: the file-handle resolver called with a filename that is None or empty
raises `ValueError('No filename given')` with an empty trace (no network call)
and an unchanged debug flag. -/
theorem C10_falsy_filename_rejected (env : ResolverEnv) (debugIn : Bool)
    (filename : Option String) (synapseStore : Option Bool)
    (h : filename = none ∨ filename = some "") :
    uploadToFileHandleService env debugIn filename synapseStore =
      (FHSResult.err (UploadOutcome.valueError "No filename given"), debugIn, []) := by
  rcases h with h | h <;> subst h <;> simp [uploadToFileHandleService]

/-- Witness for C10 at `filename = None`. -/
theorem C10_witness :
    ((none : Option String) = none ∨ (none : Option String) = some "") ∧
    uploadToFileHandleService envR true none (some true) =
      (FHSResult.err (UploadOutcome.valueError "No filename given"), true, []) :=
  ⟨Or.inl rfl, C10_falsy_filename_rejected envR true none (some true) (Or.inl rfl)⟩

/-- A chunk loop finishing without a PUT failure has counted exactly the
number of chunks it was given. -/
theorem chunkLoop_ok_count (env : UploadEnv) :
    ∀ (cs : List (List Nat)) (i j : Nat), (chunkLoop env i cs).2 = Except.ok j →
      j = i + cs.length := by
  intro cs
  induction cs with
  | nil => intro i j h; simp [chunkLoop] at h; subst h; simp
  | cons c rest ih =>
    intro i j h
    by_cases hp : env.putOk (i + 1)
    · simp only [chunkLoop, hp, if_true] at h
      have := ih (i + 1) j h
      simp only [List.length_cons]
      omega
    · simp [chunkLoop, hp] at h

/-- The signed-URL requests of a successful chunk loop carry the consecutive
chunk numbers `i+1, i+2, ...`. -/
theorem chunkLoop_url_nums (env : UploadEnv) :
    ∀ (cs : List (List Nat)) (i j : Nat), (chunkLoop env i cs).2 = Except.ok j →
      (chunkLoop env i cs).1.filterMap Event.urlReqNum = List.range' (i + 1) cs.length := by
  intro cs
  induction cs with
  | nil => intro i j h; simp [chunkLoop]
  | cons c rest ih =>
    intro i j h
    by_cases hp : env.putOk (i + 1)
    · simp only [chunkLoop, hp, if_true] at h ⊢
      simp only [List.filterMap_cons, Event.urlReqNum, List.length_cons, List.range'_succ]
      exact congrArg _ (ih (i + 1) j h)
    · simp [chunkLoop, hp] at h

/-- The PUTs of a successful chunk loop carry the consecutive chunk numbers
`i+1, i+2, ...`. -/
theorem chunkLoop_put_nums (env : UploadEnv) :
    ∀ (cs : List (List Nat)) (i j : Nat), (chunkLoop env i cs).2 = Except.ok j →
      (chunkLoop env i cs).1.filterMap Event.putNum = List.range' (i + 1) cs.length := by
  intro cs
  induction cs with
  | nil => intro i j h; simp [chunkLoop]
  | cons c rest ih =>
    intro i j h
    by_cases hp : env.putOk (i + 1)
    · simp only [chunkLoop, hp, if_true] at h ⊢
      simp only [List.filterMap_cons, Event.putNum, List.length_cons, List.range'_succ]
      exact congrArg _ (ih (i + 1) j h)
    · simp [chunkLoop, hp] at h

/-- Every event of the chunk loop is a signed-URL request or a PUT. -/
theorem chunkLoop_events_chunkish (env : UploadEnv) :
    ∀ (cs : List (List Nat)) (i : Nat) (e : Event), e ∈ (chunkLoop env i cs).1 →
      e.isChunkEvent = true := by
  intro cs
  induction cs with
  | nil => intro i e h; simp [chunkLoop] at h
  | cons c rest ih =>
    intro i e h
    by_cases hp : env.putOk (i + 1)
    · simp only [chunkLoop, hp, if_true, List.mem_cons] at h
      rcases h with rfl | rfl | h
      · rfl
      · rfl
      · exact ih (i + 1) e h
    · simp [chunkLoop, hp] at h
      rcases h with rfl | rfl <;> rfl

/-- Every event of the poll loop is a sleep or a status query. -/
theorem pollLoop_events_pollish :
    ∀ (rest : List DaemonStatus) (st : DaemonStatus) (e : Event),
      e ∈ (pollLoop st rest).1 → e.isPollEvent = true := by
  intro rest
  induction rest with
  | nil =>
    intro st e h
    by_cases hs : st.state = "PROCESSING"
    · simp only [pollLoop, hs, if_true, List.mem_cons, List.not_mem_nil,
        or_false] at h
      rcases h with rfl | rfl <;> rfl
    · simp [pollLoop, hs] at h
  | cons next rest2 ih =>
    intro st e h
    by_cases hs : st.state = "PROCESSING"
    · simp only [pollLoop, hs, if_true, List.mem_cons] at h
      rcases h with rfl | rfl | h
      · rfl
      · rfl
      · exact ih next e h
    · simp [pollLoop, hs] at h

/-- A chunk event carries no daemon list, no token content type, no sleep. -/
theorem chunkish_aux (e : Event) (h : e.isChunkEvent = true) :
    e.daemonList = none ∧ e.tokenContentType = none ∧ e.isSleep = false ∧
      e.isPollEvent = false := by
  cases e <;> simp_all [Event.isChunkEvent, Event.daemonList, Event.tokenContentType,
    Event.isSleep, Event.isPollEvent]

/-- A poll event carries no chunk number, no daemon list, no content type. -/
theorem pollish_aux (e : Event) (h : e.isPollEvent = true) :
    e.urlReqNum = none ∧ e.putNum = none ∧ e.daemonList = none ∧
      e.tokenContentType = none := by
  cases e <;> simp_all [Event.isPollEvent, Event.urlReqNum, Event.putNum,
    Event.daemonList, Event.tokenContentType]

/-- A chunk event carries neither kind of chunk-number projection mix-up:
`chunkURLRequest` yields nothing under `putNum` and conversely. -/
theorem chunkish_nums_aux (e : Event) (h : e.isChunkEvent = true) :
    (e.urlReqNum = none ∨ e.putNum = none) := by
  cases e <;> simp_all [Event.isChunkEvent, Event.urlReqNum, Event.putNum]

/-- The chunk numbers `[a+1 for a in range(n)]`, as a `range'` starting at 1. -/
theorem range_map_add_one (n : Nat) :
    (List.range n).map (fun a => a + 1) = List.range' 1 n := by
  rw [List.range'_eq_map_range]
  exact List.map_congr_left (fun a _ => Nat.add_comm a 1)

/-- C3: for a chunked upload that returns a file handle, the signed-URL
requests and the chunk PUTs use exactly the chunk numbers `1, 2, ..., N` in
this order (N the number of chunks the file splits into), with no duplicates,
and the completion daemon is started exactly once, with exactly the ordered
list `[1..N]`. -/
theorem C3_chunk_numbers_contiguous (env : UploadEnv) (debugIn : Bool) (fp : String)
    (chunksize : Nat) (verbose : PyVerbose) (fh : FileHandle)
    (hok : (chunkedUploadFile env debugIn (some fp) chunksize verbose).1 =
      UploadOutcome.ok fh) :
    ((chunkedUploadFile env debugIn (some fp) chunksize verbose).2.2).filterMap
        Event.urlReqNum =
      (List.range (chunks (env.fileBytes fp) chunksize).length).map (fun a => a + 1) ∧
    ((chunkedUploadFile env debugIn (some fp) chunksize verbose).2.2).filterMap
        Event.putNum =
      (List.range (chunks (env.fileBytes fp) chunksize).length).map (fun a => a + 1) ∧
    startedDaemonLists ((chunkedUploadFile env debugIn (some fp) chunksize verbose).2.2) =
      [(List.range (chunks (env.fileBytes fp) chunksize).length).map (fun a => a + 1)] ∧
    (((chunkedUploadFile env debugIn (some fp) chunksize verbose).2.2).filterMap
        Event.urlReqNum).Nodup := by
  by_cases hcs : chunksize < 5 * MB
  · simp [chunkedUploadFile, hcs] at hok
  by_cases hex : env.pathExists fp = false
  · simp [chunkedUploadFile, hcs, hex] at hok
  have hmain : chunkedUploadFile env debugIn (some fp) chunksize verbose =
      ((uploadBody env fp chunksize).1, debugIn, (uploadBody env fp chunksize).2) := by
    simp [chunkedUploadFile, hcs, hex]
  rw [hmain] at hok ⊢
  simp only at hok ⊢
  rcases hcl : (chunkLoop env 0 (chunks (env.fileBytes fp) chunksize)).2 with n | i
  · simp [uploadBody, hcl] at hok
  rcases hpl : (pollLoop env.firstStatus env.pollStatuses).2 with _ | st
  · simp [uploadBody, hcl, hpl] at hok
  by_cases hfail : st.state = "FAILED"
  · rcases hem : st.errorMessage with _ | m <;>
      simp [uploadBody, hcl, hpl, hfail, hem] at hok
  rcases hfid : st.fileHandleId with _ | fid
  · simp [uploadBody, hcl, hpl, hfail, hfid] at hok
  have hi : i = (chunks (env.fileBytes fp) chunksize).length := by
    have := chunkLoop_ok_count env (chunks (env.fileBytes fp) chunksize) 0 i hcl
    omega
  have hev : (uploadBody env fp chunksize).2 =
      Event.tokenRequest (basename fp)
          (match env.guessType fp with
            | none => "application/octet-stream"
            | some m => m)
          (env.md5_for_file fp) ::
        (chunkLoop env 0 (chunks (env.fileBytes fp) chunksize)).1 ++
        Event.startDaemon ((List.range i).map (fun a => a + 1)) ::
        (pollLoop env.firstStatus env.pollStatuses).1 ++ [Event.getFileHandleReq fid] := by
    simp [uploadBody, hcl, hpl, hfail, hfid]
  have hpollUrl : ((pollLoop env.firstStatus env.pollStatuses).1).filterMap
      Event.urlReqNum = [] :=
    List.filterMap_eq_nil_iff.mpr (fun e he =>
      (pollish_aux e (pollLoop_events_pollish env.pollStatuses env.firstStatus e he)).1)
  have hpollPut : ((pollLoop env.firstStatus env.pollStatuses).1).filterMap
      Event.putNum = [] :=
    List.filterMap_eq_nil_iff.mpr (fun e he =>
      (pollish_aux e (pollLoop_events_pollish env.pollStatuses env.firstStatus e he)).2.1)
  have hpollDaemon : ((pollLoop env.firstStatus env.pollStatuses).1).filterMap
      Event.daemonList = [] :=
    List.filterMap_eq_nil_iff.mpr (fun e he =>
      (pollish_aux e (pollLoop_events_pollish env.pollStatuses env.firstStatus e he)).2.2.1)
  have hchunkDaemon : ((chunkLoop env 0 (chunks (env.fileBytes fp) chunksize)).1).filterMap
      Event.daemonList = [] :=
    List.filterMap_eq_nil_iff.mpr (fun e he =>
      (chunkish_aux e (chunkLoop_events_chunkish env (chunks (env.fileBytes fp) chunksize)
        0 e he)).1)
  have hurl := chunkLoop_url_nums env (chunks (env.fileBytes fp) chunksize) 0 i hcl
  have hput := chunkLoop_put_nums env (chunks (env.fileBytes fp) chunksize) 0 i hcl
  refine ⟨?_, ?_, ?_, ?_⟩
  · rw [hev]
    simp only [List.filterMap_cons, List.filterMap_append, Event.urlReqNum]
    rw [hurl, hpollUrl]
    simp [range_map_add_one]
  · rw [hev]
    simp only [List.filterMap_cons, List.filterMap_append, Event.putNum]
    rw [hput, hpollPut]
    simp [range_map_add_one]
  · rw [hev]
    unfold startedDaemonLists
    simp only [List.filterMap_cons, List.filterMap_append, Event.daemonList]
    rw [hchunkDaemon, hpollDaemon]
    simp [hi]
  · rw [hev]
    simp only [List.filterMap_cons, List.filterMap_append, Event.urlReqNum]
    rw [hurl, hpollUrl]
    simp
    exact List.nodup_range' 1 (chunks (env.fileBytes fp) chunksize).length

/-- Witness for C3: a three-byte file at the minimum chunk size uploads as one
chunk, and the daemon receives `[1]`. -/
theorem C3_witness :
    ((chunkedUploadFile envB false (some "f") (5 * MB) PyVerbose.vOff).2.2).filterMap
        Event.urlReqNum =
      (List.range (chunks (envB.fileBytes "f") (5 * MB)).length).map (fun a => a + 1) ∧
    ((chunkedUploadFile envB false (some "f") (5 * MB) PyVerbose.vOff).2.2).filterMap
        Event.putNum =
      (List.range (chunks (envB.fileBytes "f") (5 * MB)).length).map (fun a => a + 1) ∧
    startedDaemonLists ((chunkedUploadFile envB false (some "f") (5 * MB) PyVerbose.vOff).2.2) =
      [(List.range (chunks (envB.fileBytes "f") (5 * MB)).length).map (fun a => a + 1)] ∧
    (((chunkedUploadFile envB false (some "f") (5 * MB) PyVerbose.vOff).2.2).filterMap
        Event.urlReqNum).Nodup :=
  C3_chunk_numbers_contiguous envB false "f" (5 * MB) PyVerbose.vOff
    (FileHandle.mk "42") (by decide)

/-- When every chunk PUT succeeds, the chunk loop finishes and counts all
its chunks. -/
theorem chunkLoop_ok_of_putOk (env : UploadEnv) (hput : ∀ n, env.putOk n = true) :
    ∀ (cs : List (List Nat)) (i : Nat),
      (chunkLoop env i cs).2 = Except.ok (i + cs.length) := by
  intro cs
  induction cs with
  | nil => intro i; simp [chunkLoop]
  | cons c rest ih =>
    intro i
    simp only [chunkLoop, hput (i + 1), if_true]
    rw [ih (i + 1), List.length_cons]
    exact congrArg Except.ok (by omega)

/-- The chunk loop starts no daemon. -/
theorem chunkLoop_daemonLists (env : UploadEnv) (cs : List (List Nat)) (i : Nat) :
    ((chunkLoop env i cs).1).filterMap Event.daemonList = [] :=
  List.filterMap_eq_nil_iff.mpr (fun e he =>
    (chunkish_aux e (chunkLoop_events_chunkish env cs i e he)).1)

/-- The poll loop starts no daemon. -/
theorem pollLoop_daemonLists (st : DaemonStatus) (rest : List DaemonStatus) :
    ((pollLoop st rest).1).filterMap Event.daemonList = [] :=
  List.filterMap_eq_nil_iff.mpr (fun e he =>
    (pollish_aux e (pollLoop_events_pollish rest st e he)).2.2.1)

/-- The chunk loop never sleeps. -/
theorem chunkLoop_no_sleeps (env : UploadEnv) (cs : List (List Nat)) (i : Nat) :
    ((chunkLoop env i cs).1).filter Event.isSleep = [] := by
  rw [List.filter_eq_nil_iff]
  intro e he
  have h := (chunkish_aux e (chunkLoop_events_chunkish env cs i e he)).2.2.1
  simp [h]

/-- The poll loop that walks PROCESSING statuses and then one terminal status
ends on that terminal status. -/
theorem pollLoop_terminal (fs : DaemonStatus) (hfs : fs.state ≠ "PROCESSING") :
    ∀ (ps : List DaemonStatus) (st : DaemonStatus) (rest : List DaemonStatus),
      (∀ s ∈ ps, s.state = "PROCESSING") → st :: rest = ps ++ [fs] →
      (pollLoop st rest).2 = some fs := by
  intro ps
  induction ps with
  | nil =>
    intro st rest _ hsr
    simp only [List.nil_append] at hsr
    injection hsr with h1 h2
    subst h1; subst h2
    simp [pollLoop, hfs]
  | cons p ps2 ih =>
    intro st rest hpp hsr
    simp only [List.cons_append] at hsr
    injection hsr with h1 h2
    subst h1; subst h2
    have hp : st.state = "PROCESSING" := hpp st (List.mem_cons_self st ps2)
    rcases hq : ps2 ++ [fs] with _ | ⟨next, rest2⟩
    · exact absurd hq (by simp)
    · simp only [pollLoop, hp, if_true, eq_self_iff_true, if_pos]
      exact ih next rest2 (fun s hs => hpp s (List.mem_cons_of_mem st hs)) hq.symm

/-- C4: when the chunk PUTs all succeed and the completion statuses observed
are [PROCESSING, PROCESSING, COMPLETED(fileHandleId=x)], the upload performs
exactly 2 poll sleeps and returns the file handle fetched for id x. -/
theorem C4_two_polls_then_filehandle (env : UploadEnv) (debugIn : Bool) (fp : String)
    (chunksize : Nat) (verbose : PyVerbose) (s2 s3 : DaemonStatus) (x : String)
    (hcs : ¬ chunksize < 5 * MB) (hex : env.pathExists fp = true)
    (hput : ∀ n, env.putOk n = true)
    (h1 : env.firstStatus.state = "PROCESSING")
    (hps : env.pollStatuses = [s2, s3])
    (h2 : s2.state = "PROCESSING") (h3 : s3.state = "COMPLETED")
    (hx : s3.fileHandleId = some x) :
    (chunkedUploadFile env debugIn (some fp) chunksize verbose).1 =
      UploadOutcome.ok (env.fileHandleFor x) ∧
    countSleeps ((chunkedUploadFile env debugIn (some fp) chunksize verbose).2.2) = 2 := by
  have hmain : chunkedUploadFile env debugIn (some fp) chunksize verbose =
      ((uploadBody env fp chunksize).1, debugIn, (uploadBody env fp chunksize).2) := by
    simp [chunkedUploadFile, hcs, hex]
  rw [hmain]
  have hcl := chunkLoop_ok_of_putOk env hput (chunks (env.fileBytes fp) chunksize) 0
  have h3' : ¬ s3.state = "PROCESSING" := by rw [h3]; decide
  have hpl : pollLoop env.firstStatus env.pollStatuses =
      ([Event.sleep CHUNK_UPLOAD_POLL_INTERVAL, Event.statusQuery env.firstStatus.daemonId,
        Event.sleep CHUNK_UPLOAD_POLL_INTERVAL, Event.statusQuery s2.daemonId], some s3) := by
    rw [hps]
    simp [pollLoop, h1, h2, h3']
  have hfail : ¬ s3.state = "FAILED" := by rw [h3]; decide
  constructor
  · simp [uploadBody, hcl, hpl, hfail, hx]
  · have hns := chunkLoop_no_sleeps env (chunks (env.fileBytes fp) chunksize) 0
    simp [uploadBody, hcl, hpl, hfail, hx, countSleeps, List.filter_append,
      List.filter_cons, Event.isSleep, hns]

/-- A PROCESSING status used in concrete runs. -/
def statusP2 : DaemonStatus := { daemonId := "d1", state := "PROCESSING" }

/-- A concrete environment whose daemon reports PROCESSING, PROCESSING,
COMPLETED. -/
def envC4 : UploadEnv :=
  { pathExists := fun _ => true
    guessType := fun _ => some "text/plain"
    md5_for_file := fun _ => "900150983cd24fb0d6963f7d28e17f72"
    fileBytes := fun _ => [0]
    putOk := fun _ => true
    firstStatus := statusP2
    pollStatuses := [statusP2, statusDone]
    fileHandleFor := fun s => { id := s } }

/-- Witness for C4. -/
theorem C4_witness :
    (chunkedUploadFile envC4 false (some "f") (5 * MB) PyVerbose.vOff).1 =
      UploadOutcome.ok (envC4.fileHandleFor "42") ∧
    countSleeps ((chunkedUploadFile envC4 false (some "f") (5 * MB) PyVerbose.vOff).2.2) = 2 :=
  C4_two_polls_then_filehandle envC4 false "f" (5 * MB) PyVerbose.vOff statusP2 statusDone "42"
    (by decide) rfl (fun _ => rfl) rfl rfl rfl rfl rfl

/-- C5: when the poll ends on a FAILED status carrying an error message, the
upload raises an exception whose message is the server's errorMessage
verbatim, and the completion daemon was started exactly once (the assembly is
not retried). -/
theorem C5_failed_message_verbatim (env : UploadEnv) (debugIn : Bool) (fp : String)
    (chunksize : Nat) (verbose : PyVerbose) (ps : List DaemonStatus) (fs : DaemonStatus)
    (m : String)
    (hcs : ¬ chunksize < 5 * MB) (hex : env.pathExists fp = true)
    (hput : ∀ n, env.putOk n = true)
    (hseq : env.firstStatus :: env.pollStatuses = ps ++ [fs])
    (hpp : ∀ s ∈ ps, s.state = "PROCESSING")
    (hfs : fs.state = "FAILED") (hm : fs.errorMessage = some m) :
    (chunkedUploadFile env debugIn (some fp) chunksize verbose).1 =
      UploadOutcome.exceptionMsg m ∧
    startedDaemonLists ((chunkedUploadFile env debugIn (some fp) chunksize verbose).2.2) =
      [(List.range (chunks (env.fileBytes fp) chunksize).length).map (fun a => a + 1)] := by
  have hmain : chunkedUploadFile env debugIn (some fp) chunksize verbose =
      ((uploadBody env fp chunksize).1, debugIn, (uploadBody env fp chunksize).2) := by
    simp [chunkedUploadFile, hcs, hex]
  rw [hmain]
  have hcl := chunkLoop_ok_of_putOk env hput (chunks (env.fileBytes fp) chunksize) 0
  have hfs' : fs.state ≠ "PROCESSING" := by rw [hfs]; decide
  have hpl2 := pollLoop_terminal fs hfs' ps env.firstStatus env.pollStatuses hpp hseq
  constructor
  · simp [uploadBody, hcl, hpl2, hfs, hm]
  · have hd1 := chunkLoop_daemonLists env (chunks (env.fileBytes fp) chunksize) 0
    have hd2 := pollLoop_daemonLists env.firstStatus env.pollStatuses
    simp [uploadBody, hcl, hpl2, hfs, hm, startedDaemonLists, List.filterMap_cons,
      List.filterMap_append, Event.daemonList, hd1, hd2]

/-- A FAILED status carrying the message "disk full". -/
def statusFailed : DaemonStatus :=
  { daemonId := "d2", state := "FAILED", errorMessage := some "disk full" }

/-- A concrete environment whose daemon reports FAILED("disk full") at once. -/
def envC5 : UploadEnv :=
  { pathExists := fun _ => true
    guessType := fun _ => none
    md5_for_file := fun _ => "900150983cd24fb0d6963f7d28e17f72"
    fileBytes := fun _ => [0]
    putOk := fun _ => true
    firstStatus := statusFailed
    pollStatuses := []
    fileHandleFor := fun s => { id := s } }

/-- Witness for C5. -/
theorem C5_witness :
    (chunkedUploadFile envC5 false (some "f") (5 * MB) PyVerbose.vOff).1 =
      UploadOutcome.exceptionMsg "disk full" ∧
    startedDaemonLists ((chunkedUploadFile envC5 false (some "f") (5 * MB) PyVerbose.vOff).2.2) =
      [(List.range (chunks (envC5.fileBytes "f") (5 * MB)).length).map (fun a => a + 1)] :=
  C5_failed_message_verbatim envC5 false "f" (5 * MB) PyVerbose.vOff [] statusFailed "disk full"
    (by decide) rfl (fun _ => rfl) rfl (by simp) rfl rfl

/-- Python truthiness on an optional string: `None` and `""` are falsy. -/
def truthyOpt : Option String → Option String
  | none => none
  | some m => if m = "" then none else some m

/-- The handle payload always carries the External concrete type. -/
theorem mkExternalFileHandle_concreteType (g : Option String) (n u : String) :
    (mkExternalFileHandle g n u).concreteType =
      "org.sagebionetworks.repo.model.file.ExternalFileHandle" := by
  cases g with
  | none => rfl
  | some m => by_cases hm : m = "" <;> simp [mkExternalFileHandle, hm]

/-- The handle payload carries the given URL. -/
theorem mkExternalFileHandle_externalURL (g : Option String) (n u : String) :
    (mkExternalFileHandle g n u).externalURL = u := by
  cases g with
  | none => rfl
  | some m => by_cases hm : m = "" <;> simp [mkExternalFileHandle, hm]

/-- The handle payload's `contentType` is the truthy part of the MIME guess. -/
theorem mkExternalFileHandle_contentType (g : Option String) (n u : String) :
    (mkExternalFileHandle g n u).contentType = truthyOpt g := by
  cases g with
  | none => rfl
  | some m => by_cases hm : m = "" <;> simp [mkExternalFileHandle, truthyOpt, hm]

/-- C7: resolving a nonempty local path with `synapseStore=False` posts one
External-type handle whose URL is the `file:` reference to the path, and that
POST is the only event (no chunk upload, no byte transfer). -/
theorem C7_link_only_external (env : ResolverEnv) (debugIn : Bool) (fn : String)
    (hfn : fn ≠ "") (hlocal : env.is_url fn = false) :
    ∃ fh : ExternalFileHandle,
      uploadToFileHandleService env debugIn (some fn) (some false) =
        (FHSResult.ok (env.externalResponse fh), debugIn, [Event.externalHandlePost fh]) ∧
      fh.concreteType = "org.sagebionetworks.repo.model.file.ExternalFileHandle" ∧
      fh.externalURL = "file://" ++ fn := by
  refine ⟨mkExternalFileHandle (env.up.guessType ("file://" ++ fn))
    ((pySplit fn '/').getLastD "") ("file://" ++ fn), ?_, ?_, ?_⟩
  · simp [uploadToFileHandleService, hfn, hlocal, addURLtoFileHandleService, as_url]
  · exact mkExternalFileHandle_concreteType _ _ _
  · exact mkExternalFileHandle_externalURL _ _ _

/-- Witness for C7. -/
theorem C7_witness :
    ∃ fh : ExternalFileHandle,
      uploadToFileHandleService envR true (some "data.csv") (some false) =
        (FHSResult.ok (envR.externalResponse fh), true, [Event.externalHandlePost fh]) ∧
      fh.concreteType = "org.sagebionetworks.repo.model.file.ExternalFileHandle" ∧
      fh.externalURL = "file://" ++ "data.csv" :=
  C7_link_only_external envR true "data.csv" (by decide) rfl

/-- A resolver environment that treats every string as a URL and never
guesses a MIME type. -/
def envC8 : ResolverEnv :=
  { up := { envA with guessType := fun _ => none }
    is_url := fun _ => true
    externalResponse := fun _ => { id := "ext2" } }

/-- C8 counterexample: for an external URL with no guessable MIME type, the
posted handle carries no `contentType` at all, not
`application/octet-stream`. -/
theorem C8_counterexample :
    envC8.up.guessType "http://example.com/datafile" = none ∧
    ∃ fh : ExternalFileHandle,
      (addURLtoFileHandleService envC8 "http://example.com/datafile").2 =
        [Event.externalHandlePost fh] ∧
      fh.contentType = none ∧
      fh.contentType ≠ some "application/octet-stream" := by
  refine ⟨rfl, mkExternalFileHandle none "datafile" "http://example.com/datafile",
    ?_, rfl, by decide⟩
  rfl

/-- C8 amended: the chunked upload transmits as content type exactly the MIME
guess for the file, defaulting to `application/octet-stream` when the guess is
`None`; the external-handle payload instead carries the MIME guess for the URL
when that guess is truthy and omits the field otherwise. -/
theorem C8_amended_contentType (env : ResolverEnv) (debugIn : Bool) (fp : String)
    (chunksize : Nat) (verbose : PyVerbose) (url : String)
    (hcs : ¬ chunksize < 5 * MB) (hex : env.up.pathExists fp = true) :
    ((chunkedUploadFile env.up debugIn (some fp) chunksize verbose).2.2).filterMap
        Event.tokenContentType =
      [(env.up.guessType fp).getD "application/octet-stream"] ∧
    ((addURLtoFileHandleService env url).2 =
      [Event.externalHandlePost (mkExternalFileHandle
        (env.up.guessType (as_url env.is_url url)) ((pySplit url '/').getLastD "")
        (as_url env.is_url url))] ∧
     (mkExternalFileHandle (env.up.guessType (as_url env.is_url url))
        ((pySplit url '/').getLastD "") (as_url env.is_url url)).contentType =
       truthyOpt (env.up.guessType (as_url env.is_url url))) := by
  refine ⟨?_, rfl, mkExternalFileHandle_contentType _ _ _⟩
  have hmain : chunkedUploadFile env.up debugIn (some fp) chunksize verbose =
      ((uploadBody env.up fp chunksize).1, debugIn, (uploadBody env.up fp chunksize).2) := by
    simp [chunkedUploadFile, hcs, hex]
  rw [hmain]
  have hchunkCT : ((chunkLoop env.up 0 (chunks (env.up.fileBytes fp) chunksize)).1).filterMap
      Event.tokenContentType = [] :=
    List.filterMap_eq_nil_iff.mpr (fun e he =>
      (chunkish_aux e (chunkLoop_events_chunkish env.up _ 0 e he)).2.1)
  have hpollCT : ((pollLoop env.up.firstStatus env.up.pollStatuses).1).filterMap
      Event.tokenContentType = [] :=
    List.filterMap_eq_nil_iff.mpr (fun e he =>
      (pollish_aux e (pollLoop_events_pollish env.up.pollStatuses env.up.firstStatus e he)).2.2.2)
  have hmt : (match env.up.guessType fp with
      | none => "application/octet-stream"
      | some m => m) = (env.up.guessType fp).getD "application/octet-stream" := by
    cases env.up.guessType fp <;> rfl
  rcases hcl : (chunkLoop env.up 0 (chunks (env.up.fileBytes fp) chunksize)).2 with n | i
  · simp [uploadBody, hcl, List.filterMap_cons, Event.tokenContentType, hchunkCT, hmt]
  rcases hpl : (pollLoop env.up.firstStatus env.up.pollStatuses).2 with _ | st
  · simp [uploadBody, hcl, hpl, List.filterMap_cons, List.filterMap_append,
      Event.tokenContentType, hchunkCT, hpollCT, hmt]
  by_cases hfail : st.state = "FAILED"
  · rcases hem : st.errorMessage with _ | m2 <;>
      simp [uploadBody, hcl, hpl, hfail, hem, List.filterMap_cons, List.filterMap_append,
        Event.tokenContentType, hchunkCT, hpollCT, hmt]
  rcases hfid : st.fileHandleId with _ | fid <;>
    simp [uploadBody, hcl, hpl, hfail, hfid, List.filterMap_cons, List.filterMap_append,
      Event.tokenContentType, hchunkCT, hpollCT, hmt]

/-- A resolver environment over `envB`, treating every string as a URL. -/
def envR2 : ResolverEnv :=
  { up := envB
    is_url := fun _ => true
    externalResponse := fun _ => { id := "ext3" } }

/-- Witness for the amended C8. -/
theorem C8_amended_witness :
    ((chunkedUploadFile envR2.up false (some "f") (5 * MB) PyVerbose.vOff).2.2).filterMap
        Event.tokenContentType =
      [(envR2.up.guessType "f").getD "application/octet-stream"] ∧
    ((addURLtoFileHandleService envR2 "http://example.com/x.bin").2 =
      [Event.externalHandlePost (mkExternalFileHandle
        (envR2.up.guessType (as_url envR2.is_url "http://example.com/x.bin"))
        ((pySplit "http://example.com/x.bin" '/').getLastD "")
        (as_url envR2.is_url "http://example.com/x.bin"))] ∧
     (mkExternalFileHandle
        (envR2.up.guessType (as_url envR2.is_url "http://example.com/x.bin"))
        ((pySplit "http://example.com/x.bin" '/').getLastD "")
        (as_url envR2.is_url "http://example.com/x.bin")).contentType =
       truthyOpt (envR2.up.guessType (as_url envR2.is_url "http://example.com/x.bin"))) :=
  C8_amended_contentType envR2 false "f" (5 * MB) PyVerbose.vOff "http://example.com/x.bin"
    (by decide) rfl

/-- Extraction events are local filesystem writes, not network requests. -/
theorem extract_events_not_network (dir : String) (ms : List String) :
    (ms.map (fun m => Event.extractMember (os_path_join dir m))).filter Event.isNetwork = [] := by
  rw [List.filter_eq_nil_iff]
  intro e he
  simp only [List.mem_map] at he
  obtain ⟨m, _, rfl⟩ := he
  simp [Event.isNetwork]

/-- C6: when the cached file exists, its `.md5` sidecar exists and is strictly
newer than the file, and the cached digest equals the entity's expected MD5,
`_downloadLocations` returns the existing cache path and its trace contains no
network request (so an identical second resolve is network-free as well, the
model being a pure function of the unchanged environment). -/
theorem C6_cache_hit_no_network (env : DLEnv) (cacheDir : String) (entity : LocEntity)
    (url : String) (rest : List String) (ct : String)
    (hloc : entity.locations = url :: rest)
    (hex : env.pathExists (cachedFileName env cacheDir entity url) = true)
    (hsc : env.pathExists (cachedFileName env cacheDir entity url ++ ".md5") = true)
    (hfresh : env.getmtime (cachedFileName env cacheDir entity url ++ ".md5") >
      env.getmtime (cachedFileName env cacheDir entity url))
    (hmd5 : env.readFirstLineStripped (cachedFileName env cacheDir entity url ++ ".md5") =
      entity.md5.getD "")
    (hct : entity.contentType = some ct) :
    (∃ out, (downloadLocations env cacheDir entity).1 = DLResult.ok out ∧
       out.path = some (cachedFileName env cacheDir entity url)) ∧
    ((downloadLocations env cacheDir entity).2).filter Event.isNetwork = [] := by
  by_cases hz : ct = "application/zip"
  · have hval : downloadLocations env cacheDir entity =
        (DLResult.ok { path := some (cachedFileName env cacheDir entity url),
                       cacheDir := some (os_path_join
                         (dirname (cachedFileName env cacheDir entity url))
                         (basename (cachedFileName env cacheDir entity url) ++ "_unpacked")),
                       files := some (env.namelist (cachedFileName env cacheDir entity url)) },
         (env.namelist (cachedFileName env cacheDir entity url)).map
           (fun m => Event.extractMember (os_path_join
             (os_path_join (dirname (cachedFileName env cacheDir entity url))
               (basename (cachedFileName env cacheDir entity url) ++ "_unpacked")) m))) := by
      simp [downloadLocations, hloc, hex, hsc, hfresh, hmd5, hct, hz]
    refine ⟨⟨_, by rw [hval], rfl⟩, ?_⟩
    rw [hval]
    exact extract_events_not_network _ _
  · have hval : downloadLocations env cacheDir entity =
        (DLResult.ok { path := some (cachedFileName env cacheDir entity url),
                       cacheDir := some (dirname (cachedFileName env cacheDir entity url)),
                       files := some [basename (cachedFileName env cacheDir entity url)] },
         []) := by
      simp [downloadLocations, hloc, hex, hsc, hfresh, hmd5, hct, hz]
    exact ⟨⟨_, by rw [hval], rfl⟩, by rw [hval]; rfl⟩

/-- A filesystem whose cached file and fresh sidecar match the entity MD5. -/
def dlEnvW : DLEnv :=
  { pathExists := fun _ => true
    getmtime := fun p => if p = "/cache/syn123/file.txt" then 1 else 2
    readFirstLineStripped := fun _ => "cafebabe"
    md5_for_file := fun _ => "cafebabe"
    urlPathOf := fun _ => "/data/file.txt"
    namelist := fun _ => [] }

/-- A Locationable entity whose cached copy is current. -/
def entW : LocEntity :=
  { id := "syn123"
    locations := ["https://host/data/file.txt"]
    md5 := some "cafebabe"
    contentType := some "text/plain" }

/-- Witness for C6. -/
theorem C6_witness :
    (∃ out, (downloadLocations dlEnvW "/cache" entW).1 = DLResult.ok out ∧
       out.path = some (cachedFileName dlEnvW "/cache" entW "https://host/data/file.txt")) ∧
    ((downloadLocations dlEnvW "/cache" entW).2).filter Event.isNetwork = [] :=
  C6_cache_hit_no_network dlEnvW "/cache" entW "https://host/data/file.txt" [] "text/plain"
    rfl rfl rfl (by decide) rfl rfl

/-- The filesystem of the C1 run: nothing cached, and the zip archive at the
cache path contains the member `../../evil.txt`. -/
def dlEnvC1 : DLEnv :=
  { pathExists := fun _ => false
    getmtime := fun _ => 0
    readFirstLineStripped := fun _ => ""
    md5_for_file := fun _ => "d41d8cd98f00b204e9800998ecf8427e"
    urlPathOf := fun _ => "/f/archive.zip"
    namelist := fun _ => ["../../evil.txt"] }

/-- A Locationable zip entity pointing at the archive URL. -/
def entC1 : LocEntity :=
  { id := "syn123"
    locations := ["http://host/f/archive.zip"]
    md5 := some "abc"
    contentType := some "application/zip" }

set_option maxRecDepth 4000 in
/-- C1 evaluated at the failing input: `_downloadLocations` downloads the
archive and `extractall` writes the member `../../evil.txt` at a destination
whose resolved path (`/cache/evil.txt`) lies outside the
`archive.zip_unpacked` extraction directory; no entry is rejected. -/
theorem C1_traversal_extract_outside :
    (downloadLocations dlEnvC1 "/cache" entC1).2 =
      [Event.downloadFile "http://host/f/archive.zip" "/cache/syn123/archive.zip",
       Event.extractMember "/cache/syn123/archive.zip_unpacked/../../evil.txt"] ∧
    isWithin "/cache/syn123/archive.zip_unpacked"
      "/cache/syn123/archive.zip_unpacked/../../evil.txt" = false ∧
    normalizePath "/cache/syn123/archive.zip_unpacked/../../evil.txt" = "/cache/evil.txt" := by
  refine ⟨?_, ?_, ?_⟩ <;> rfl
